import Mathlib

/-!
# Verification of the query-resolution pipeline of rust-ragllm-qdrant

Shallow embedding of `src/handler/payload.rs`.  The resolver
(`ImplPayloadInterface::payload`) and the HTTP router (`process_payload`)
are translated into pure Lean functions.  External collaborators (the
qdrant client construction, the ollama embedding call, the vector search,
the filesystem) are modelled as an explicit `World` record of functions;
floating-point scores are modelled as rationals, and the Rust `Display`
rendering of a score is a field of the `World` (it is an external library
behaviour we do not re-implement), except for the constant expression
`0.0.to_string()` occurring literally in the source, whose value under the
Rust `Display` implementation is the string "0" (Rust prints floats as the
shortest round-tripping decimal and never appends a trailing ".0" in
`Display`; only `Debug` formatting does that).

Fallible Rust computations are embedded as `RustResult`: a normal return,
an `Err` propagated by the question-mark operator, or an `unwrap` panic
aborting the request.  File reads performed by the resolver are tracked
explicitly as a list of paths, so that statements about "no file read is
performed" can be made.
-/

/-- Request JSON body of `POST /query` (struct `QueryDetails` in the source):
a category and a query string. -/
structure QueryDetails where
  category : String
  query : String
  deriving DecidableEq, Repr

/-- Response body (struct `ResponseDetails` in the source).  Field order is
the declaration order of the Rust struct, which is also the serde_json
serialization order: status, query, data, score. -/
structure ResponseDetails where
  status : String
  query : Option String
  data : String
  score : String
  deriving DecidableEq, Repr

/-- Values stored in a search-match payload map: a string (the only case the
resolver extracts, via `as_str()`) or anything else. -/
inductive PayloadValue where
  | str (s : String)
  | other
  deriving DecidableEq, Repr

/-- Modelled from the spec: the search match returned by
`crate::qdrant::client::VectorDB::search` (that module is not under `src/`).
Per the spec, a match is a similarity score together with a payload mapping
(key "id" maps to a file-system path string); the payload may be empty when
no match is found. -/
structure SearchMatch where
  score : Rat
  payload : List (String × PayloadValue)
  deriving DecidableEq, Repr

/-- Modelled from the spec: the fields of `ApplicationConfig.spec`
(`crate::api::schema` is not under `src/`) that the handler reads:
qdrant url and port, ollama url and port, embedding model name, search
category, and the confidence score threshold. -/
structure SpecConfig where
  qdrant_url : String
  qdrant_port : Nat
  ollama_url : String
  ollama_port : Nat
  model : String
  category : String
  score_threshold : Rat
  deriving DecidableEq, Repr

/-- Modelled from the spec: the service configuration wrapper. -/
structure ApplicationConfig where
  spec : SpecConfig
  deriving DecidableEq, Repr

deriving instance DecidableEq for Except

/-- Outcome of a fallible Rust computation: a normal return value, an `Err`
propagated by the question-mark operator, or an `unwrap` panic that aborts
the request abnormally. -/
inductive RustResult (α : Type) where
  | ok (a : α)
  | err (e : String)
  | panic
  deriving DecidableEq, Repr

/-- The external collaborators of one request, as result-producing
functions: `connect` models `Qdrant::from_url(addr).build()` applied to the
formatted address; `embed` models
`Ollama::new(url, port as u16).generate_embeddings(model, query, None)`;
`search` models `VectorDB::search(category, vector)`; `fs` models
`std::fs::read_to_string(path)`; `scoreToString` models the Rust `Display`
rendering (`to_string`) of a float score.  Errors are carried as their
formatted diagnostic strings. -/
structure World where
  connect : String → Except String Unit
  embed : String → Nat → String → String → Except String (List Rat)
  search : String → List Rat → Except String SearchMatch
  fs : String → Except String String
  scoreToString : Rat → String

/-- The constant expression `0.0.to_string()` from the source: the Rust
`Display` implementation for floats renders `0.0` as "0" (shortest
round-tripping decimal, no trailing ".0"). -/
def rustDisplayZero : String := "0"

/-- The fixed advisory message of the no-match and low-confidence branches. -/
def refineMsg : String :=
  "I could not find any related info, please refine your prompt"

/-- The qdrant address `format!("\x7b\x7d:\x7b\x7d", qdrant_url, qdrant_port)`. -/
def qdrantAddr (config : ApplicationConfig) : String :=
  config.spec.qdrant_url ++ ":" ++ toString config.spec.qdrant_port

/-- `vecdb_res.payload["id"].as_str()`: look up a key in the payload map and
keep it only when the stored value is a string. -/
def lookupStr (p : List (String × PayloadValue)) (k : String) : Option String :=
  match p.lookup k with
  | some (PayloadValue.str s) => some s
  | _ => none

/-- Embedding of `ImplPayloadInterface::payload` (src/handler/payload.rs
lines 54-130).  Returns the outcome together with the list of file paths
read.  Branch by branch:
connect failure returns `Ok(KO "qdrant <err>")`; embedding failure returns
`Ok(KO "ollama <err>")`; a search failure is propagated with the
question-mark operator (line 99); an empty payload or a score at or below
the threshold returns `Ok(KO refineMsg)`; otherwise `payload["id"]` is
extracted with `as_str().unwrap()` (panicking when absent or not a string)
and the file is read, a read failure being propagated with the
question-mark operator (line 104). -/
def payload (w : World) (config : ApplicationConfig) (query : String) :
    RustResult ResponseDetails × List String :=
  match w.connect (qdrantAddr config) with
  | Except.error e =>
      (RustResult.ok
        { status := "KO", query := none, data := "qdrant " ++ e,
          score := rustDisplayZero }, [])
  | Except.ok _ =>
    match w.embed config.spec.ollama_url (config.spec.ollama_port % 65536)
        config.spec.model query with
    | Except.error e =>
        (RustResult.ok
          { status := "KO", query := none, data := "ollama " ++ e,
            score := rustDisplayZero }, [])
    | Except.ok vec =>
      match w.search config.spec.category vec with
      | Except.error e => (RustResult.err e, [])
      | Except.ok m =>
        if !m.payload.isEmpty then
          if m.score > config.spec.score_threshold then
            match lookupStr m.payload "id" with
            | none => (RustResult.panic, [])
            | some v =>
              match w.fs v with
              | Except.error e => (RustResult.err e, [v])
              | Except.ok markdown_data =>
                  (RustResult.ok
                    { status := "OK", query := some query,
                      data := markdown_data,
                      score := w.scoreToString m.score }, [v])
          else
            (RustResult.ok
              { status := "KO", query := some query, data := refineMsg,
                score := rustDisplayZero }, [])
        else
          (RustResult.ok
            { status := "KO", query := some query, data := refineMsg,
              score := rustDisplayZero }, [])

/-- HTTP methods the router distinguishes. -/
inductive HttpMethod where
  | GET
  | POST
  | other
  deriving DecidableEq, Repr

/-- An incoming HTTP request: method, path, the upper bound of the body
size hint (`req.body().size_hint().upper()`), and the body bytes (given as
the UTF-8 text they decode to). -/
structure HttpRequest where
  method : HttpMethod
  path : String
  sizeHintUpper : Option Nat
  body : String
  deriving DecidableEq, Repr

/-- An outgoing HTTP response: status code and body text. -/
structure HttpResponse where
  statusCode : Nat
  body : String
  deriving DecidableEq, Repr

/-- serde_json escaping of one character inside a JSON string literal. -/
def jsonEscapeChar (c : Char) : String :=
  if c = '"' then "\\\""
  else if c = '\\' then "\\\\"
  else if c = Char.ofNat 8 then "\\b"
  else if c = Char.ofNat 9 then "\\t"
  else if c = Char.ofNat 10 then "\\n"
  else if c = Char.ofNat 12 then "\\f"
  else if c = Char.ofNat 13 then "\\r"
  else if c.toNat < 32 then
    "\\u00" ++ String.singleton (Nat.digitChar (c.toNat / 16))
      ++ String.singleton (Nat.digitChar (c.toNat % 16))
  else String.singleton c

/-- serde_json escaping of a whole string. -/
def jsonEscape (s : String) : String :=
  String.join (s.toList.map jsonEscapeChar)

/-- `serde_json::to_string` for `ResponseDetails`: fields in declaration
order; a `None` query serializes as `null`. -/
def responseToJson (r : ResponseDetails) : String :=
  "\x7b\"status\":\"" ++ jsonEscape r.status ++ "\",\"query\":"
    ++ (match r.query with
        | none => "null"
        | some q => "\"" ++ jsonEscape q ++ "\"")
    ++ ",\"data\":\"" ++ jsonEscape r.data
    ++ "\",\"score\":\"" ++ jsonEscape r.score ++ "\"\x7d"

/-- `u64::MAX`, the default taken when the size hint has no upper bound. -/
def u64Max : Nat := 2 ^ 64 - 1

/-- The `POST /query` branch after the size gate (src/handler/payload.rs
lines 154-166): decode and parse the body (`parse` models
`serde_json::from_str::<QueryDetails>`, whose failure is unwrapped, hence a
panic), run the resolver, panic when it returned `Err`
(`res.as_ref().unwrap()`), otherwise serialize it, mapping status "KO" to
HTTP 500 and anything else to HTTP 200. -/
def handleQuery (w : World) (parse : String → Option QueryDetails)
    (config : ApplicationConfig) (body : String) :
    RustResult HttpResponse × List String :=
  match parse body with
  | none => (RustResult.panic, [])
  | some query_json =>
    match payload w config query_json.query with
    | (RustResult.ok r, reads) =>
        (RustResult.ok
          { statusCode := if r.status = "KO" then 500 else 200,
            body := responseToJson r }, reads)
    | (RustResult.err _, reads) => (RustResult.panic, reads)
    | (RustResult.panic, reads) => (RustResult.panic, reads)

/-- Embedding of the router `process_payload` (src/handler/payload.rs lines
133-195).  `POST /query`: when the size hint upper bound (defaulting to
`u64::MAX`) exceeds 64 KiB, answer 413 with a KO body without touching the
body; otherwise run `handleQuery`.  `GET /isalive`: answer the liveness
body with HTTP status 500 (`INTERNAL_SERVER_ERROR`, as in the source).
Anything else: 404 with the catch-all KO body. -/
def process_payload (w : World) (parse : String → Option QueryDetails)
    (config : ApplicationConfig) (req : HttpRequest) :
    RustResult HttpResponse × List String :=
  if req.method = HttpMethod.POST ∧ req.path = "/query" then
    if (req.sizeHintUpper.getD u64Max) > 1024 * 64 then
      (RustResult.ok
        { statusCode := 413,
          body := responseToJson
            { status := "KO", query := none, data := "body too big",
              score := rustDisplayZero } }, [])
    else
      handleQuery w parse config req.body
  else if req.method = HttpMethod.GET ∧ req.path = "/isalive" then
    (RustResult.ok
      { statusCode := 500,
        body := responseToJson
          { status := "OK", query := none, data := "service is up",
            score := rustDisplayZero } }, [])
  else
    (RustResult.ok
      { statusCode := 404,
        body := responseToJson
          { status := "KO", query := none,
            data := "ensure you post to the /query endpoint with valid json",
            score := rustDisplayZero } }, [])

/-! ## Concrete fixtures used by witnesses and counterexamples -/

/-- A concrete configuration with score threshold 1. -/
def cfg0 : ApplicationConfig :=
  ⟨⟨"http://localhost", 6334, "http://localhost", 11434, "mistral", "docs", 1⟩⟩

/-- A world where every external call succeeds: the search returns score 2
with payload id "doc.md", and that file holds "Reset steps...". -/
def wOK : World :=
  { connect := fun _ => Except.ok ()
    embed := fun _ _ _ _ => Except.ok [1]
    search := fun _ _ => Except.ok ⟨2, [("id", PayloadValue.str "doc.md")]⟩
    fs := fun p => if p = "doc.md" then Except.ok "Reset steps..."
                   else Except.error "missing"
    scoreToString := fun _ => "2" }

/-- A world whose search succeeds with an empty payload. -/
def wEmpty : World := { wOK with search := fun _ _ => Except.ok ⟨2, []⟩ }

/-- A world whose search returns a score equal to the threshold of cfg0. -/
def wLow : World :=
  { wOK with
    search := fun _ _ => Except.ok ⟨1, [("id", PayloadValue.str "doc.md")]⟩ }

/-- A world where qdrant client construction fails. -/
def wConnFail : World := { wOK with connect := fun _ => Except.error "boom" }

/-- A world where the ollama embedding call fails. -/
def wEmbedFail : World :=
  { wOK with embed := fun _ _ _ _ => Except.error "boom" }

/-- A world where the vector search call fails. -/
def wSearchFail : World :=
  { wOK with search := fun _ _ => Except.error "status: Unavailable" }

/-- A world where the file named by the match cannot be read. -/
def wReadFail : World := { wOK with fs := fun _ => Except.error "NotFound" }

/-- A world where the matched file exists but is empty. -/
def wEmptyFile : World :=
  { wOK with fs := fun p => if p = "doc.md" then Except.ok ""
                            else Except.error "missing" }

/-- A world whose confident match has no "id" key in its payload. -/
def wNoId : World :=
  { wOK with
    search := fun _ _ => Except.ok ⟨2, [("name", PayloadValue.str "x")]⟩ }

/-- A world whose confident match stores a non-string value under "id". -/
def wBadId : World :=
  { wOK with search := fun _ _ => Except.ok ⟨2, [("id", PayloadValue.other)]⟩ }

/-- A concrete body parse: "b1" and "b2" parse to requests with different
categories but the same query; everything else fails to parse. -/
def parse0 : String → Option QueryDetails := fun s =>
  if s = "b1" then some ⟨"docs", "q"⟩
  else if s = "b2" then some ⟨"other", "q"⟩
  else none

/-! ## Claims -/

/-- Claim C1: for every search match whose payload is non-empty and whose
score is strictly greater than the configured threshold, and for which the
file at the path stored under payload key "id" is readable, the resolver
returns a response with status OK, score equal to the score of the match
converted to a string, query equal to the original query, and data equal to
the exact contents of that file. -/
theorem C1_ok_path (w : World) (config : ApplicationConfig) (query : String)
    (u : Unit) (vec : List Rat) (m : SearchMatch) (p contents : String)
    (hc : w.connect (qdrantAddr config) = Except.ok u)
    (he : w.embed config.spec.ollama_url (config.spec.ollama_port % 65536)
            config.spec.model query = Except.ok vec)
    (hs : w.search config.spec.category vec = Except.ok m)
    (hne : m.payload ≠ [])
    (hsc : m.score > config.spec.score_threshold)
    (hid : lookupStr m.payload "id" = some p)
    (hf : w.fs p = Except.ok contents) :
    (payload w config query).1 =
      RustResult.ok ⟨"OK", some query, contents, w.scoreToString m.score⟩ := by
  have hne' : m.payload.isEmpty = false := by
    cases h : m.payload with
    | nil => exact absurd h hne
    | cons a l => rfl
  simp [payload, hc, he, hs, hne', hsc, hid, hf]

/-- Witness for C1 at the all-succeeding world. -/
theorem C1_ok_path_witness :
    (payload wOK cfg0 "how do I reset").1 =
      RustResult.ok ⟨"OK", some "how do I reset", "Reset steps...", "2"⟩ :=
  C1_ok_path wOK cfg0 "how do I reset" () [1]
    ⟨2, [("id", PayloadValue.str "doc.md")]⟩ "doc.md" "Reset steps..."
    rfl rfl rfl (by decide) (by decide) rfl rfl

/-- Claim C2 (amended): for every search result whose payload is empty, and
for every search match whose score is less than or equal to the configured
threshold (including exactly equal), the resolver returns a response with
status KO, score string "0" (the Rust rendering of the constant
`0.0.to_string()`), and data equal to the fixed message "I could not find
any related info, please refine your prompt"; the two cases produce the
identical user-facing response. -/
theorem C2_ko_path (w : World) (config : ApplicationConfig) (query : String)
    (u : Unit) (vec : List Rat) (m : SearchMatch)
    (hc : w.connect (qdrantAddr config) = Except.ok u)
    (he : w.embed config.spec.ollama_url (config.spec.ollama_port % 65536)
            config.spec.model query = Except.ok vec)
    (hs : w.search config.spec.category vec = Except.ok m)
    (hko : m.payload = [] ∨ m.score ≤ config.spec.score_threshold) :
    (payload w config query).1 =
      RustResult.ok ⟨"KO", some query, refineMsg, "0"⟩ := by
  rcases hko with h | h
  · simp [payload, hc, he, hs, h, rustDisplayZero]
  · have h' : ¬ m.score > config.spec.score_threshold := not_lt.mpr h
    cases hp : m.payload with
    | nil => simp [payload, hc, he, hs, hp, rustDisplayZero]
    | cons a l => simp [payload, hc, he, hs, hp, h', rustDisplayZero]

/-- Witness for C2 at a world with an empty search payload and at a world
whose score sits exactly at the threshold. -/
theorem C2_ko_path_witness :
    (payload wEmpty cfg0 "q").1 =
      RustResult.ok ⟨"KO", some "q", refineMsg, "0"⟩ ∧
    (payload wLow cfg0 "q").1 =
      RustResult.ok ⟨"KO", some "q", refineMsg, "0"⟩ :=
  ⟨C2_ko_path wEmpty cfg0 "q" () [1] ⟨2, []⟩ rfl rfl rfl (Or.inl rfl),
   C2_ko_path wLow cfg0 "q" () [1] ⟨1, [("id", PayloadValue.str "doc.md")]⟩
     rfl rfl rfl (Or.inr (by decide))⟩

/-- Counterexample for C2 as stated: at a concrete empty-payload search
result the KO response carries score string "0", not "0.0" (in Rust,
`0.0.to_string()` renders without a trailing ".0"). -/
theorem C2_counterexample :
    (payload wEmpty cfg0 "q").1 =
      RustResult.ok ⟨"KO", some "q", refineMsg, "0"⟩ ∧
    (payload wEmpty cfg0 "q").1 ≠
      RustResult.ok ⟨"KO", some "q", refineMsg, "0.0"⟩ := by
  constructor
  · decide
  · decide

/-- Claim C3 (amended): for every failure of the vector-search call (as
distinct from an empty match), the resolver propagates the failure as a
hard error (the question-mark operator on the search call returns `Err`
from the resolver), and the request handler then aborts abnormally (its
`unwrap` of the resolver result panics); the failure is not converted to a
KO response. -/
theorem C3_search_hard_error (w : World) (config : ApplicationConfig)
    (query : String) (u : Unit) (vec : List Rat) (e : String)
    (hc : w.connect (qdrantAddr config) = Except.ok u)
    (he : w.embed config.spec.ollama_url (config.spec.ollama_port % 65536)
            config.spec.model query = Except.ok vec)
    (hs : w.search config.spec.category vec = Except.error e) :
    (payload w config query).1 = RustResult.err e ∧
    ∀ (parse : String → Option QueryDetails) (n : Nat) (body : String)
      (qd : QueryDetails), n ≤ 1024 * 64 → parse body = some qd →
      qd.query = query →
      (process_payload w parse config
          ⟨HttpMethod.POST, "/query", some n, body⟩).1 = RustResult.panic := by
  have hpay : payload w config query = (RustResult.err e, []) := by
    simp [payload, hc, he, hs]
  refine ⟨by rw [hpay], ?_⟩
  intro parse n body qd hn hparse hq
  have hsize : ¬ (65536 < n) := by omega
  simp [process_payload, hsize, handleQuery, hparse, hq, hpay]

/-- Witness for C3 at a concrete failing search. -/
theorem C3_search_hard_error_witness :
    (payload wSearchFail cfg0 "q").1 = RustResult.err "status: Unavailable" ∧
    (process_payload wSearchFail parse0 cfg0
        ⟨HttpMethod.POST, "/query", some 10, "b1"⟩).1 = RustResult.panic :=
  ⟨(C3_search_hard_error wSearchFail cfg0 "q" () [1] "status: Unavailable"
      rfl rfl rfl).1,
   (C3_search_hard_error wSearchFail cfg0 "q" () [1] "status: Unavailable"
      rfl rfl rfl).2 parse0 10 "b1" ⟨"docs", "q"⟩ (by decide) rfl rfl⟩

/-- Counterexample for C3 as stated: at a concrete failing search the
resolver returns a propagated hard error, not a KO response, and the
request handler panics rather than producing a response. -/
theorem C3_counterexample :
    (payload wSearchFail cfg0 "q").1 = RustResult.err "status: Unavailable" ∧
    (∀ r : ResponseDetails,
      (payload wSearchFail cfg0 "q").1 ≠ RustResult.ok r) ∧
    (process_payload wSearchFail parse0 cfg0
        ⟨HttpMethod.POST, "/query", some 10, "b1"⟩).1 = RustResult.panic := by
  refine ⟨by decide, ?_, by decide⟩
  intro r h
  have h1 : (payload wSearchFail cfg0 "q").1 =
      RustResult.err "status: Unavailable" := by decide
  rw [h1] at h
  exact RustResult.noConfusion h

/-- Claim C4 (amended): for every resolver execution, a returned response
with status OK carries data equal to the full contents of the one file that
was read for the matched record (possibly the empty string when that file
is empty), and a returned response with status KO is produced without any
file read ever being performed. -/
theorem C4_invariant (w : World) (config : ApplicationConfig) (query : String)
    (r : ResponseDetails)
    (h : (payload w config query).1 = RustResult.ok r) :
    (r.status = "OK" →
      ∃ p, (payload w config query).2 = [p] ∧ w.fs p = Except.ok r.data) ∧
    (r.status = "KO" → (payload w config query).2 = []) := by
  cases hc : w.connect (qdrantAddr config) with
  | error e =>
    simp [payload, hc] at h ⊢
    subst h; intro hk; simp at hk
  | ok u =>
    cases he : w.embed config.spec.ollama_url (config.spec.ollama_port % 65536)
        config.spec.model query with
    | error e =>
      simp [payload, hc, he] at h ⊢
      subst h; intro hk; simp at hk
    | ok vec =>
      cases hs : w.search config.spec.category vec with
      | error e => simp [payload, hc, he, hs] at h
      | ok m =>
        by_cases hpe : m.payload.isEmpty
        · simp [payload, hc, he, hs, hpe] at h ⊢
          subst h; intro hk; simp at hk
        · by_cases hsc : m.score > config.spec.score_threshold
          · cases hid : lookupStr m.payload "id" with
            | none => simp [payload, hc, he, hs, hpe, hsc, hid] at h
            | some v =>
              cases hf : w.fs v with
              | error e => simp [payload, hc, he, hs, hpe, hsc, hid, hf] at h
              | ok contents =>
                simp [payload, hc, he, hs, hpe, hsc, hid, hf] at h ⊢
                subst h
                exact ⟨fun _ => rfl, by intro hk; simp at hk⟩
          · simp [payload, hc, he, hs, hpe, hsc] at h ⊢
            subst h; intro hk; simp at hk

/-- Witness for C4 at the all-succeeding world. -/
theorem C4_invariant_witness :
    (ResponseDetails.status ⟨"OK", some "q", "Reset steps...", "2"⟩ = "OK" →
      ∃ p, (payload wOK cfg0 "q").2 = [p] ∧
        wOK.fs p =
          Except.ok
            (ResponseDetails.data ⟨"OK", some "q", "Reset steps...", "2"⟩)) ∧
    (ResponseDetails.status ⟨"OK", some "q", "Reset steps...", "2"⟩ = "KO" →
      (payload wOK cfg0 "q").2 = []) :=
  C4_invariant wOK cfg0 "q" ⟨"OK", some "q", "Reset steps...", "2"⟩ (by decide)

/-- Counterexample for C4 as stated: when the matched file exists but is
empty, the resolver returns a response with status OK whose data is the
empty string, so an OK response does not always carry non-empty data. -/
theorem C4_counterexample :
    (payload wEmptyFile cfg0 "q").1 =
      RustResult.ok ⟨"OK", some "q", "", "2"⟩ ∧
    ResponseDetails.data ⟨"OK", some "q", "", "2"⟩ = "" := by
  constructor
  · decide
  · rfl

/-- Claim C5: for every failure of vector-store client construction, the
resolver terminates with a KO response whose data is a diagnostic string
beginning with "qdrant", and for every failure of the embedding call, with
a KO response whose data begins with "ollama"; in both cases the failure
is returned as a normal response (a `RustResult.ok`), not propagated as a
hard crash. -/
theorem C5_connect_embed_diagnostics (w : World) (config : ApplicationConfig)
    (query : String) :
    (∀ e, w.connect (qdrantAddr config) = Except.error e →
      (payload w config query).1 =
        RustResult.ok ⟨"KO", none, "qdrant " ++ e, "0"⟩ ∧
      ∃ rest, "qdrant " ++ e = "qdrant" ++ rest) ∧
    (∀ u e, w.connect (qdrantAddr config) = Except.ok u →
      w.embed config.spec.ollama_url (config.spec.ollama_port % 65536)
          config.spec.model query = Except.error e →
      (payload w config query).1 =
        RustResult.ok ⟨"KO", none, "ollama " ++ e, "0"⟩ ∧
      ∃ rest, "ollama " ++ e = "ollama" ++ rest) := by
  constructor
  · intro e hc
    constructor
    · simp [payload, hc, rustDisplayZero]
    · exact ⟨" " ++ e, (String.append_assoc "qdrant" " " e).symm⟩
  · intro u e hc he
    constructor
    · simp [payload, hc, he, rustDisplayZero]
    · exact ⟨" " ++ e, (String.append_assoc "ollama" " " e).symm⟩

/-- Witness for C5 at a world with a failing qdrant client construction and
at a world with a failing embedding call. -/
theorem C5_connect_embed_diagnostics_witness :
    ((payload wConnFail cfg0 "q").1 =
        RustResult.ok ⟨"KO", none, "qdrant " ++ "boom", "0"⟩ ∧
      ∃ rest, "qdrant " ++ "boom" = "qdrant" ++ rest) ∧
    ((payload wEmbedFail cfg0 "q").1 =
        RustResult.ok ⟨"KO", none, "ollama " ++ "boom", "0"⟩ ∧
      ∃ rest, "ollama " ++ "boom" = "ollama" ++ rest) :=
  ⟨(C5_connect_embed_diagnostics wConnFail cfg0 "q").1 "boom" rfl,
   (C5_connect_embed_diagnostics wEmbedFail cfg0 "q").2 () "boom" rfl rfl⟩

/-- Claim C6: for every confident match (non-empty payload, score strictly
above the threshold) whose referenced file cannot be read, the resolver
propagates the read failure as a hard error (the question-mark operator on
the file read returns `Err`), and the request handler then aborts the
request abnormally (its `unwrap` of the resolver result panics) rather
than converting the failure to a KO response. -/
theorem C6_read_failure_hard_error (w : World) (config : ApplicationConfig)
    (query : String) (u : Unit) (vec : List Rat) (m : SearchMatch)
    (p e : String)
    (hc : w.connect (qdrantAddr config) = Except.ok u)
    (he : w.embed config.spec.ollama_url (config.spec.ollama_port % 65536)
            config.spec.model query = Except.ok vec)
    (hs : w.search config.spec.category vec = Except.ok m)
    (hne : m.payload ≠ [])
    (hsc : m.score > config.spec.score_threshold)
    (hid : lookupStr m.payload "id" = some p)
    (hf : w.fs p = Except.error e) :
    (payload w config query).1 = RustResult.err e ∧
    ∀ (parse : String → Option QueryDetails) (n : Nat) (body : String)
      (qd : QueryDetails), n ≤ 1024 * 64 → parse body = some qd →
      qd.query = query →
      (process_payload w parse config
          ⟨HttpMethod.POST, "/query", some n, body⟩).1 = RustResult.panic := by
  have hne' : m.payload.isEmpty = false := by
    cases h : m.payload with
    | nil => exact absurd h hne
    | cons a l => rfl
  have hpay : payload w config query = (RustResult.err e, [p]) := by
    simp [payload, hc, he, hs, hne', hsc, hid, hf]
  refine ⟨by rw [hpay], ?_⟩
  intro parse n body qd hn hparse hq
  have hsize : ¬ (65536 < n) := by omega
  simp [process_payload, hsize, handleQuery, hparse, hq, hpay]

/-- Witness for C6 at a world whose matched file is unreadable. -/
theorem C6_read_failure_hard_error_witness :
    (payload wReadFail cfg0 "q").1 = RustResult.err "NotFound" ∧
    (process_payload wReadFail parse0 cfg0
        ⟨HttpMethod.POST, "/query", some 10, "b1"⟩).1 = RustResult.panic :=
  ⟨(C6_read_failure_hard_error wReadFail cfg0 "q" () [1]
      ⟨2, [("id", PayloadValue.str "doc.md")]⟩ "doc.md" "NotFound"
      rfl rfl rfl (by decide) (by decide) rfl rfl).1,
   (C6_read_failure_hard_error wReadFail cfg0 "q" () [1]
      ⟨2, [("id", PayloadValue.str "doc.md")]⟩ "doc.md" "NotFound"
      rfl rfl rfl (by decide) (by decide) rfl rfl).2 parse0 10 "b1"
      ⟨"docs", "q"⟩ (by decide) rfl rfl⟩

/-- Claim C7: for every POST /query request whose body size hint reports
strictly more than 64 KiB, the router returns 413 Payload Too Large with a
KO body whose value does not depend on the body bytes or on the body
parser (so no body byte is read or parsed); a request whose size hint
reports exactly 64 KiB is accepted and processed (it proceeds to the
body-handling continuation). -/
theorem C7_size_gate (w : World) (config : ApplicationConfig) :
    (∀ (parse : String → Option QueryDetails) (n : Nat) (body : String),
      1024 * 64 < n →
      process_payload w parse config
          ⟨HttpMethod.POST, "/query", some n, body⟩ =
        (RustResult.ok
          ⟨413, responseToJson ⟨"KO", none, "body too big", "0"⟩⟩, [])) ∧
    (∀ (parse : String → Option QueryDetails) (body : String),
      process_payload w parse config
          ⟨HttpMethod.POST, "/query", some (1024 * 64), body⟩ =
        handleQuery w parse config body) := by
  constructor
  · intro parse n body hn
    simp [process_payload, hn, rustDisplayZero]
  · intro parse body
    simp [process_payload]

/-- Witness for C7 at size hints of exactly 64 KiB + 1 byte and exactly
64 KiB. -/
theorem C7_size_gate_witness :
    process_payload wOK parse0 cfg0 ⟨HttpMethod.POST, "/query", some 65537, "b1"⟩ =
      (RustResult.ok
        ⟨413, responseToJson ⟨"KO", none, "body too big", "0"⟩⟩, []) ∧
    process_payload wOK parse0 cfg0 ⟨HttpMethod.POST, "/query", some 65536, "b1"⟩ =
      handleQuery wOK parse0 cfg0 "b1" :=
  ⟨(C7_size_gate wOK cfg0).1 parse0 65537 "b1" (by decide),
   (C7_size_gate wOK cfg0).2 parse0 "b1"⟩

/-- Claim C8: for every pair of POST /query requests that differ only in
the category field of the request JSON (same size hint, bodies parsing to
records with equal query fields), the router and resolver produce the same
result: the request category value has no influence, the search being
scoped by the category from the service configuration. -/
theorem C8_category_ignored (w : World)
    (parse : String → Option QueryDetails) (config : ApplicationConfig)
    (hint : Option Nat) (b1 b2 : String) (q1 q2 : QueryDetails)
    (h1 : parse b1 = some q1) (h2 : parse b2 = some q2)
    (hq : q1.query = q2.query) :
    process_payload w parse config ⟨HttpMethod.POST, "/query", hint, b1⟩ =
      process_payload w parse config ⟨HttpMethod.POST, "/query", hint, b2⟩ := by
  by_cases hsize : (hint.getD u64Max) > 1024 * 64
  · simp [process_payload, hsize]
  · simp [process_payload, hsize, handleQuery, h1, h2, hq]

/-- Witness for C8 at two bodies parsing to distinct categories ("docs"
and "other") with the same query. -/
theorem C8_category_ignored_witness :
    process_payload wOK parse0 cfg0 ⟨HttpMethod.POST, "/query", some 10, "b1"⟩ =
      process_payload wOK parse0 cfg0 ⟨HttpMethod.POST, "/query", some 10, "b2"⟩ :=
  C8_category_ignored wOK parse0 cfg0 (some 10) "b1" "b2"
    ⟨"docs", "q"⟩ ⟨"other", "q"⟩ rfl rfl rfl

/-- Claim C9 (amended): for every GET /isalive request, the router returns
a body equal to
\x7b"status":"OK","query":null,"data":"service is up","score":"0"\x7d
(the score string is "0", the Rust rendering of the constant
`0.0.to_string()`) while setting the HTTP status code to 500 Internal
Server Error, performing no file read. -/
theorem C9_isalive (w : World) (parse : String → Option QueryDetails)
    (config : ApplicationConfig) (hint : Option Nat) (body : String) :
    process_payload w parse config ⟨HttpMethod.GET, "/isalive", hint, body⟩ =
      (RustResult.ok
        ⟨500,
          "\x7b\"status\":\"OK\",\"query\":null,\"data\":\"service is up\",\"score\":\"0\"\x7d"⟩,
        []) := by
  show (if (HttpMethod.GET = HttpMethod.POST ∧ "/isalive" = "/query") then _
        else _) = _
  rw [if_neg (by simp)]
  rw [if_pos (by simp)]
  rfl

/-- Counterexample for C9 as stated: the liveness body carries score "0",
not "0.0" (in Rust, `0.0.to_string()` renders without a trailing ".0"),
so the body differs from the one the claim gives. -/
theorem C9_counterexample :
    (process_payload wOK parse0 cfg0 ⟨HttpMethod.GET, "/isalive", none, ""⟩).1 =
      RustResult.ok
        ⟨500,
          "\x7b\"status\":\"OK\",\"query\":null,\"data\":\"service is up\",\"score\":\"0\"\x7d"⟩ ∧
    ("\x7b\"status\":\"OK\",\"query\":null,\"data\":\"service is up\",\"score\":\"0\"\x7d" : String) ≠
      "\x7b\"status\":\"OK\",\"query\":null,\"data\":\"service is up\",\"score\":\"0.0\"\x7d" := by
  constructor
  · decide
  · decide

/-- Claim C10: for every search match with a non-empty payload and a score
strictly above the threshold, the resolver unconditionally extracts the
value under payload key "id" as a string; when the key is absent or its
value is not a string (so `lookupStr` yields none), the extraction panics,
aborting the request with no response, rather than returning any
response. -/
theorem C10_missing_id_panics (w : World) (config : ApplicationConfig)
    (query : String) (u : Unit) (vec : List Rat) (m : SearchMatch)
    (hc : w.connect (qdrantAddr config) = Except.ok u)
    (he : w.embed config.spec.ollama_url (config.spec.ollama_port % 65536)
            config.spec.model query = Except.ok vec)
    (hs : w.search config.spec.category vec = Except.ok m)
    (hne : m.payload ≠ [])
    (hsc : m.score > config.spec.score_threshold)
    (hid : lookupStr m.payload "id" = none) :
    (payload w config query).1 = RustResult.panic := by
  have hne' : m.payload.isEmpty = false := by
    cases h : m.payload with
    | nil => exact absurd h hne
    | cons a l => rfl
  simp [payload, hc, he, hs, hne', hsc, hid]

/-- Witness for C10 at a world whose payload lacks the "id" key and at a
world whose "id" value is not a string. -/
theorem C10_missing_id_panics_witness :
    (payload wNoId cfg0 "q").1 = RustResult.panic ∧
    (payload wBadId cfg0 "q").1 = RustResult.panic :=
  ⟨C10_missing_id_panics wNoId cfg0 "q" () [1]
      ⟨2, [("name", PayloadValue.str "x")]⟩ rfl rfl rfl (by decide) (by decide)
      rfl,
   C10_missing_id_panics wBadId cfg0 "q" () [1]
      ⟨2, [("id", PayloadValue.other)]⟩ rfl rfl rfl (by decide) (by decide)
      rfl⟩
